import Mathlib

/-!
Verification development for the opendebrief recording core: a shallow
embedding of the recording-session controller (`AudioRecorder` in the
FFmpeg-backed module, `NativeAudioRecorder` in `src/audio/devices.ts`),
the app-level start guard (`App.startRecording` in `src/app.ts`), the
device classifier (`identifySystemAudioDevices`), and the dual-source
merge step of the native Swift recorder (`RecordingSession.mergeAudioFiles`
in `native/recorder.swift`).

Conventions of the embedding:
* Timestamps (milliseconds since epoch, as produced by the host clock)
  are modelled as `Int`.
* A method that both mutates the object and may throw is modelled as a
  total function returning a result structure with the post-state, the
  list of emitted events, the list of POSIX signals sent to the
  subprocess, and an `Option String` carrying the thrown error message
  (`none` means the call returned normally).
* The subprocess itself is external; where its behaviour matters it is
  an explicit oracle argument: `spawnOk` for whether the spawn call
  succeeds, and an exit-time argument (milliseconds after the interrupt
  signal) for the graceful-stop race.
-/

/-! ## String helpers

The source uses JavaScript `String.prototype.includes`,
`String.prototype.toLowerCase`, `String.prototype.trim` and Swift
`replacingOccurrences(of:with:)`.  They are embedded as character-list
functions so that every theorem can be evaluated on concrete inputs.
-/

/-- Does the character list start with `pat`? (JS `startsWith` on lists.) -/
def charsStartWith (pat : List Char) (s : List Char) : Bool :=
  match pat, s with
  | [], _ => true
  | _ :: _, [] => false
  | a :: as, b :: bs => a = b && charsStartWith as bs

/-- Does `s` contain `pat` as a contiguous run? (JS `includes` on lists.) -/
def charsContain (pat : List Char) : List Char → Bool
  | [] => charsStartWith pat []
  | c :: rest => charsStartWith pat (c :: rest) || charsContain pat rest

/-- JS `a.includes(b)`: `b` occurs as a substring of `a`. -/
def strIncludes (s pat : String) : Bool :=
  charsContain pat.toList s.toList

/-- JS `s.toLowerCase()` (ASCII lowering, which covers every device name
and keyword compared in the source). -/
def strToLower (s : String) : String :=
  String.mk (s.toList.map Char.toLower)

/-! ## Device classifier (`identifySystemAudioDevices`, src/audio/devices.ts) -/

/-- `process.platform` restricted to the three values the source branches on. -/
inductive Platform : Type
  | darwin
  | win32
  | linux
deriving DecidableEq, Repr

/-- `AudioDevice` from src/audio/devices.ts (`type` is always `"audio"` for
every device the audio paths produce, so it is omitted). -/
structure AudioDevice : Type where
  index : Nat
  name : String
deriving DecidableEq, Repr

/-- `SystemAudioDevice` from src/audio/devices.ts.  The optional TS fields
`isBlackHole` / `isStereoMix` / `isMonitor` are `Option Bool`, with `none`
standing for the field being absent (`undefined`). -/
structure SystemAudioDevice : Type where
  index : Nat
  name : String
  isSystemAudio : Bool
  isBlackHole : Option Bool
  isStereoMix : Option Bool
  isMonitor : Option Bool
deriving DecidableEq, Repr

/-- The per-device body of `identifySystemAudioDevices` (the `devices.map`
callback, src/audio/devices.ts lines 176-213). -/
def identifyOne (platform : Platform) (device : AudioDevice) : SystemAudioDevice :=
  let nameLower := strToLower device.name
  let base : SystemAudioDevice :=
    { index := device.index, name := device.name, isSystemAudio := false,
      isBlackHole := none, isStereoMix := none, isMonitor := none }
  match platform with
  | Platform.darwin =>
      if strIncludes nameLower "blackhole" || strIncludes nameLower "loopback" ||
          strIncludes nameLower "soundflower" then
        { base with isSystemAudio := true,
                    isBlackHole := some (strIncludes nameLower "blackhole") }
      else base
  | Platform.win32 =>
      if strIncludes nameLower "stereo mix" || strIncludes nameLower "what u hear" ||
          strIncludes nameLower "loopback" then
        { base with isSystemAudio := true, isStereoMix := some true }
      else base
  | Platform.linux =>
      if strIncludes nameLower ".monitor" then
        { base with isSystemAudio := true, isMonitor := some true }
      else base

/-- `identifySystemAudioDevices` (src/audio/devices.ts lines 171-214). -/
def identifySystemAudioDevices (platform : Platform) (devices : List AudioDevice) :
    List SystemAudioDevice :=
  devices.map (identifyOne platform)

/-- The platform-specific marker condition the classifier tests, written out
once so the classification theorem can state an iff against it. -/
def systemAudioMarker (platform : Platform) (nameLower : String) : Bool :=
  match platform with
  | Platform.darwin =>
      strIncludes nameLower "blackhole" || strIncludes nameLower "loopback" ||
        strIncludes nameLower "soundflower"
  | Platform.win32 =>
      strIncludes nameLower "stereo mix" || strIncludes nameLower "what u hear" ||
        strIncludes nameLower "loopback"
  | Platform.linux => strIncludes nameLower ".monitor"

/-- C9: the classifier marks a device as system audio iff its lowercased name
contains a platform-specific marker; on the macOS path "BlackHole 2ch" yields
`isSystemAudio = true` and `isBlackHole = true`; on the Linux path
"Monitor of Built-in Audio.monitor" yields `isSystemAudio = true` and
`isMonitor = true`; and "MacBook Pro Microphone" is never system audio. -/
theorem identify_system_audio_spec :
    (∀ (platform : Platform) (devices : List AudioDevice),
        (identifySystemAudioDevices platform devices).map
            (fun d => d.isSystemAudio) =
          devices.map (fun d => systemAudioMarker platform (strToLower d.name)))
    ∧ (identifyOne Platform.darwin { index := 0, name := "BlackHole 2ch" }).isSystemAudio
        = true
    ∧ (identifyOne Platform.darwin { index := 0, name := "BlackHole 2ch" }).isBlackHole
        = some true
    ∧ (identifyOne Platform.linux
          { index := 1, name := "Monitor of Built-in Audio.monitor" }).isSystemAudio
        = true
    ∧ (identifyOne Platform.linux
          { index := 1, name := "Monitor of Built-in Audio.monitor" }).isMonitor
        = some true
    ∧ (∀ (platform : Platform),
        (identifyOne platform
            { index := 2, name := "MacBook Pro Microphone" }).isSystemAudio = false) := by
  refine ⟨?_, by decide, by decide, by decide, by decide, ?_⟩
  · intro platform devices
    induction devices with
    | nil => rfl
    | cons d rest ih =>
        simp only [identifySystemAudioDevices, List.map] at ih ⊢
        refine congrArg₂ _ ?_ ih
        cases platform <;> simp only [identifyOne, systemAudioMarker] <;> split <;> simp_all
  · intro platform
    cases platform <;> decide

/-! ## FFmpeg-backed recorder (`AudioRecorder`, src/unnamed/part_000)

The class fields become a record; `Date.now()` readings become explicit
`Int` arguments; `this.process` becomes the flag `processPresent` (the
subprocess handle itself is external).  Each lifecycle method returns a
`RecResult` collecting the post-state, the events emitted through the
`EventEmitter`, the signals sent to the subprocess via `process.kill`,
and the thrown error, if any.
-/

/-- `RecordingState` of the FFmpeg-backed recorder. -/
inductive RecordingState : Type
  | idle
  | recording
  | paused
  | stopping
deriving DecidableEq, Repr

/-- POSIX signals the source sends through `process.kill`. -/
inductive Signal : Type
  | sigint
  | sigkill
  | sigstop
  | sigcont
deriving DecidableEq, Repr

/-- `RecorderConfig` of the FFmpeg-backed recorder (the fields the lifecycle
methods read; devices are `Option` for the TS `AudioDevice | null`). -/
structure RecorderConfig : Type where
  micDevice : Option AudioDevice
  systemDevice : Option AudioDevice
  outputPath : String
  outputFormat : String
  mixAudio : Bool
  bitrate : String
deriving DecidableEq, Repr

/-- `Partial<RecorderConfig>`: every field optional; `none` means the key is
absent from the partial object passed to `setConfig`. -/
structure PartialRecorderConfig : Type where
  micDevice : Option (Option AudioDevice)
  systemDevice : Option (Option AudioDevice)
  outputPath : Option String
  outputFormat : Option String
  mixAudio : Option Bool
  bitrate : Option String
deriving DecidableEq, Repr

/-- The spread `\x7b ...this.config, ...config \x7d` in `setConfig`: a key
present in the partial overrides the stored value, an absent key leaves it. -/
def applyPartialConfig (c : RecorderConfig) (p : PartialRecorderConfig) : RecorderConfig :=
  { micDevice := p.micDevice.getD c.micDevice,
    systemDevice := p.systemDevice.getD c.systemDevice,
    outputPath := p.outputPath.getD c.outputPath,
    outputFormat := p.outputFormat.getD c.outputFormat,
    mixAudio := p.mixAudio.getD c.mixAudio,
    bitrate := p.bitrate.getD c.bitrate }

/-- Events of the FFmpeg-backed recorder's `EventEmitter`. -/
inductive RecEvent : Type
  | stateChange (s : RecordingState)
  | errorEv (msg : String)
  | finished (outputPath : String) (duration : Int)
  | progressEv (duration : Int) (size : Int)
deriving DecidableEq, Repr

/-- The mutable fields of class `AudioRecorder`. -/
structure AudioRecorder : Type where
  state : RecordingState
  config : RecorderConfig
  platform : Platform
  startTime : Int
  pausedDuration : Int
  pauseStartTime : Int
  processPresent : Bool
deriving DecidableEq, Repr

/-- Result of one lifecycle call on `AudioRecorder`. -/
structure RecResult : Type where
  recorder : AudioRecorder
  events : List RecEvent
  signals : List Signal
  thrown : Option String
deriving DecidableEq, Repr

/-- The constructor: state `idle`, zeroed timing fields, no subprocess. -/
def initRecorder (platform : Platform) (config : RecorderConfig) : AudioRecorder :=
  { state := RecordingState.idle, config := config, platform := platform,
    startTime := 0, pausedDuration := 0, pauseStartTime := 0, processPresent := false }

/-- `getElapsedTime` (part_000 lines 53-59), with `now` the `Date.now()` reading. -/
def AudioRecorder.getElapsedTime (r : AudioRecorder) (now : Int) : Int :=
  if r.state = RecordingState.idle then 0
  else if r.state = RecordingState.paused then
    r.pauseStartTime - r.startTime - r.pausedDuration
  else now - r.startTime - r.pausedDuration

/-- `AudioRecorder.start` (part_000 lines 126-170).  `spawnOk` is the oracle
for whether `Bun.spawn` succeeds; on failure the catch block resets the state
to idle, emits an error event and rethrows. -/
def AudioRecorder.start (r : AudioRecorder) (now : Int) (spawnOk : Bool) : RecResult :=
  if r.state ≠ RecordingState.idle then
    { recorder := r, events := [], signals := [],
      thrown := some "Cannot start recording in this state" }
  else if r.config.micDevice = none ∧ r.config.systemDevice = none then
    { recorder := r, events := [], signals := [],
      thrown := some "At least one audio device must be configured" }
  else if spawnOk then
    { recorder := { r with state := RecordingState.recording, startTime := now,
                           pausedDuration := 0, processPresent := true },
      events := [RecEvent.stateChange RecordingState.recording],
      signals := [], thrown := none }
  else
    { recorder := { r with state := RecordingState.idle },
      events := [RecEvent.errorEv "spawn failed"],
      signals := [], thrown := some "spawn failed" }

/-- The 5000 ms shutdown timeout of `stop` (the `setTimeout(..., 5000)`). -/
def stopTimeoutMs : Int := 5000

/-- `AudioRecorder.stop` (part_000 lines 216-249).  `exitTimeMs` is the
oracle for how many milliseconds after the interrupt signal the subprocess
exits; the timeout branch fires exactly when the exit does not happen within
`stopTimeoutMs`.  A paused session is first resumed with SIGCONT so FFmpeg
can finalize; then SIGINT starts the graceful shutdown and the exit event is
raced against the timeout, which force-kills with SIGKILL if it wins. -/
def AudioRecorder.stop (r : AudioRecorder) (exitTimeMs : Int) : RecResult :=
  if r.state ≠ RecordingState.recording ∧ r.state ≠ RecordingState.paused then
    { recorder := r, events := [], signals := [],
      thrown := some "Cannot stop recording in this state" }
  else
    let contSignals :=
      if r.state = RecordingState.paused ∧ r.platform ≠ Platform.win32 ∧
          r.processPresent = true then [Signal.sigcont] else []
    let stopSignals :=
      if r.processPresent = true then
        Signal.sigint :: (if exitTimeMs < stopTimeoutMs then [] else [Signal.sigkill])
      else []
    { recorder := { r with state := RecordingState.stopping, processPresent := false },
      events := [RecEvent.stateChange RecordingState.stopping],
      signals := contSignals ++ stopSignals, thrown := none }

/-- `AudioRecorder.pause` (part_000 lines 267-279).  Throws unless recording;
on a non-Windows host with a live subprocess it sends SIGSTOP, flips to
paused and records the pause start; otherwise it is a silent no-op. -/
def AudioRecorder.pause (r : AudioRecorder) (now : Int) : RecResult :=
  if r.state ≠ RecordingState.recording then
    { recorder := r, events := [], signals := [],
      thrown := some "Cannot pause in this state" }
  else if r.platform ≠ Platform.win32 ∧ r.processPresent = true then
    { recorder := { r with state := RecordingState.paused, pauseStartTime := now },
      events := [RecEvent.stateChange RecordingState.paused],
      signals := [Signal.sigstop], thrown := none }
  else
    { recorder := r, events := [], signals := [], thrown := none }

/-- `AudioRecorder.resume` (part_000 lines 284-296).  Throws unless paused;
on a non-Windows host with a live subprocess it sends SIGCONT, accumulates
the paused duration and flips back to recording; otherwise a silent no-op. -/
def AudioRecorder.resume (r : AudioRecorder) (now : Int) : RecResult :=
  if r.state ≠ RecordingState.paused then
    { recorder := r, events := [], signals := [],
      thrown := some "Cannot resume in this state" }
  else if r.platform ≠ Platform.win32 ∧ r.processPresent = true then
    { recorder := { r with pausedDuration := r.pausedDuration + (now - r.pauseStartTime),
                           state := RecordingState.recording },
      events := [RecEvent.stateChange RecordingState.recording],
      signals := [Signal.sigcont], thrown := none }
  else
    { recorder := r, events := [], signals := [], thrown := none }

/-- The `exited.then` handler installed by `start` (part_000 lines 155-165):
on a zero exit code it emits `finished` with the elapsed time, then in every
case forces the state to idle and emits the state change. -/
def AudioRecorder.exited (r : AudioRecorder) (code : Int) (now : Int) : RecResult :=
  let doneEvents :=
    if code = 0 then [RecEvent.finished r.config.outputPath (r.getElapsedTime now)]
    else []
  { recorder := { r with state := RecordingState.idle },
    events := doneEvents ++ [RecEvent.stateChange RecordingState.idle],
    signals := [], thrown := none }

/-- `AudioRecorder.kill` (part_000 lines 254-261): unconditionally kills the
subprocess if present, drops the handle and forces idle. -/
def AudioRecorder.killRec (r : AudioRecorder) : RecResult :=
  { recorder := { r with state := RecordingState.idle, processPresent := false },
    events := [RecEvent.stateChange RecordingState.idle],
    signals := if r.processPresent then [Signal.sigkill] else [],
    thrown := none }

/-- `AudioRecorder.setConfig` (part_000 lines 301-306): throws unless idle,
otherwise merges the partial over the stored configuration. -/
def AudioRecorder.setConfig (r : AudioRecorder) (p : PartialRecorderConfig) :
    AudioRecorder × Option String :=
  if r.state ≠ RecordingState.idle then
    (r, some "Cannot update config while recording")
  else
    ({ r with config := applyPartialConfig r.config p }, none)

/-! ## Native recorder wrapper (`NativeAudioRecorder`, src/audio/devices.ts)

The Swift-CLI-backed recorder: states `idle | recording | stopping`, a JSON
line protocol on stdout, SIGINT/SIGKILL shutdown.  `JSON.parse` is an
external platform call; it is modelled as an abstract argument
`parse : String → Option RecorderMessage` where `none` stands for the parse
throwing (the `catch` around it swallows the exception after logging).
-/

/-- `RecordingState` of the native-CLI-backed recorder. -/
inductive NState : Type
  | idle
  | recording
  | stopping
deriving DecidableEq, Repr

/-- `NativeDevice.type` values. -/
inductive NDeviceType : Type
  | microphone
  | system
deriving DecidableEq, Repr

/-- `NativeDevice` from src/audio/devices.ts. -/
structure NativeDevice : Type where
  index : String
  name : String
  id : String
  type : NDeviceType
deriving DecidableEq, Repr

/-- `RecorderConfig` of the native recorder. -/
structure NConfig : Type where
  outputPath : String
  recordMic : Bool
  recordSystem : Bool
deriving DecidableEq, Repr

/-- Events of the native recorder's `EventEmitter`. -/
inductive NEvent : Type
  | stateChange (s : NState)
  | errorEv (msg : String)
  | started (outputPath : String)
  | stopped (outputPath : String)
deriving DecidableEq, Repr

/-- One parsed JSON line of the recorder protocol (`RecorderMessage`). -/
structure RecorderMessage : Type where
  success : Bool
  message : Option String
  error : Option String
deriving DecidableEq, Repr

/-- The mutable fields of class `NativeAudioRecorder`. -/
structure NativeAudioRecorder : Type where
  state : NState
  config : NConfig
  startTime : Int
  processPresent : Bool
deriving DecidableEq, Repr

/-- Result of one lifecycle call on `NativeAudioRecorder`; `spawned` records
whether this call spawned the recorder subprocess. -/
structure NRes : Type where
  recorder : NativeAudioRecorder
  events : List NEvent
  signals : List Signal
  thrown : Option String
  spawned : Bool
deriving DecidableEq, Repr

/-- `NativeAudioRecorder.start` (src/audio/devices.ts lines 514-567).
`spawnOk` is the oracle for whether `Bun.spawn` succeeds; on failure the
catch block resets to idle, emits an error event and rethrows. -/
def NativeAudioRecorder.start (r : NativeAudioRecorder) (now : Int) (spawnOk : Bool) :
    NRes :=
  if r.state ≠ NState.idle then
    { recorder := r, events := [], signals := [],
      thrown := some "Cannot start recording in this state", spawned := false }
  else if spawnOk then
    { recorder := { r with state := NState.recording, startTime := now,
                           processPresent := true },
      events := [NEvent.stateChange NState.recording],
      signals := [], thrown := none, spawned := true }
  else
    { recorder := { r with state := NState.idle },
      events := [NEvent.errorEv "spawn failed"],
      signals := [], thrown := some "spawn failed", spawned := false }

/-- `NativeAudioRecorder.stop` (src/audio/devices.ts lines 642-673): throws
unless recording; flips to stopping, sends SIGINT, races the subprocess exit
against the 5000 ms timeout (SIGKILL exactly when the timeout wins), then
settles on idle and drops the handle. -/
def NativeAudioRecorder.stop (r : NativeAudioRecorder) (exitTimeMs : Int) : NRes :=
  if r.state ≠ NState.recording then
    { recorder := r, events := [], signals := [],
      thrown := some "Cannot stop recording in this state", spawned := false }
  else
    let stopSignals :=
      if r.processPresent = true then
        Signal.sigint :: (if exitTimeMs < stopTimeoutMs then [] else [Signal.sigkill])
      else []
    { recorder := { r with state := NState.idle, processPresent := false },
      events := [NEvent.stateChange NState.stopping, NEvent.stateChange NState.idle],
      signals := stopSignals, thrown := none, spawned := false }

/-- The `exited.then` handler installed by `NativeAudioRecorder.start`
(src/audio/devices.ts lines 553-560): only when the exit happens while still
`recording` (an unexpected exit) it forces the state to idle and emits the
state change; it performs nothing else — no error event, no file or merge
operation. -/
def NativeAudioRecorder.exited (r : NativeAudioRecorder) (code : Int) :
    NativeAudioRecorder × List NEvent :=
  if r.state = NState.recording then
    ({ r with state := NState.idle }, [NEvent.stateChange NState.idle])
  else
    (r, [])

/-- `NativeAudioRecorder.setConfig` (src/audio/devices.ts lines 690-695). -/
def NativeAudioRecorder.setNConfig (r : NativeAudioRecorder)
    (outputPath : Option String) (recordMic recordSystem : Option Bool) :
    NativeAudioRecorder × Option String :=
  if r.state ≠ NState.idle then
    (r, some "Cannot update config while recording")
  else
    ({ r with config := { outputPath := outputPath.getD r.config.outputPath,
                          recordMic := recordMic.getD r.config.recordMic,
                          recordSystem := recordSystem.getD r.config.recordSystem } },
     none)

/-! ### stdout line protocol (`handleOutput`, src/audio/devices.ts 592-637) -/

/-- JS `s.trim()`: strip leading and trailing whitespace. -/
def strTrim (s : String) : String :=
  String.mk (((s.toList.dropWhile Char.isWhitespace).reverse.dropWhile
    Char.isWhitespace).reverse)

/-- The dispatch on one successfully parsed `RecorderMessage`
(src/audio/devices.ts lines 618-627). -/
def dispatchMessage (outputPath : String) (msg : RecorderMessage) : List NEvent :=
  if msg.success = true ∧ msg.message = some "Recording started" then
    [NEvent.started outputPath]
  else if msg.success = true ∧ msg.message = some "Recording stopped" then
    [NEvent.stopped outputPath]
  else if msg.success = false ∧ msg.error ≠ none then
    [NEvent.errorEv (msg.error.getD "")]
  else []

/-- Processing of one complete line from the recorder's stdout: blank lines
are skipped, a line whose parse throws is logged and ignored, a parsed
message is dispatched. -/
def processLine (parse : String → Option RecorderMessage) (outputPath : String)
    (line : String) : List NEvent :=
  if strTrim line = "" then []
  else
    match parse line with
    | some msg => dispatchMessage outputPath msg
    | none => []

/-- The stream-consumption loop over the complete lines received so far:
each line is processed in order and the loop always continues to the next
line (it terminates only when the stream closes). -/
def processLines (parse : String → Option RecorderMessage) (outputPath : String) :
    List String → List NEvent
  | [] => []
  | line :: rest => processLine parse outputPath line ++ processLines parse outputPath rest

/-! ## App-level start guard (`App.startRecording`, src/app.ts 1284-1349)

`startRecording` is `async`; its first suspension point is the
`await this.ensureRecordingsDir()` call.  Everything before that await —
the `isStartingRecording` guard check, setting the guard, computing
`recordMic`/`recordSystem` and the source validation — runs synchronously,
so a second `start` call can only interleave after that prefix.  The model
splits the method there: `appStartPhase1` is the synchronous prefix,
`appStartPhase2` the remainder, and `appStartRecording` the whole call run
without interleaving.
-/

/-- The `App.state` fields `startRecording` reads and writes, plus the
`isStartingRecording` member and the `recorder` member of the `App` class. -/
structure AppState : Type where
  isStartingRecording : Bool
  recorder : Option NativeAudioRecorder
  recordingState : NState
  selectedMic : Option NativeDevice
  selectedSystemAudio : Option NativeDevice
  recordBoth : Bool
  errorMessage : String
  outputPath : String
deriving DecidableEq, Repr

/-- The listeners `startRecording` registers: `stateChange` mirrors the
recorder state into `App.state.recordingState` and `error` copies the
message into `App.state.errorMessage`; the `started`/`stopped` listeners
only touch UI messaging and the transcription hand-off, which is out of
scope here, so they leave the modelled state unchanged. -/
def appApplyRecorderEvents (s : AppState) (events : List NEvent) : AppState :=
  events.foldl
    (fun st e =>
      match e with
      | NEvent.stateChange rs => { st with recordingState := rs }
      | NEvent.errorEv m => { st with errorMessage := m }
      | NEvent.started _ => st
      | NEvent.stopped _ => st)
    s

/-- Outcome of the synchronous prefix of `startRecording`. -/
inductive StartPhase1Out : Type
  | blocked (s : AppState)
  | invalidSources (s : AppState)
  | proceed (s : AppState) (recordMic recordSystem : Bool)
deriving DecidableEq, Repr

/-- Synchronous prefix of `App.startRecording` (src/app.ts 1288-1301): the
double-start guard (flag, live recorder object, non-idle state), setting the
flag, computing which sources record, and the at-least-one-source check.
Note that the early `return` of the validation failure skips the
`try/finally`, so `isStartingRecording` stays `true` in that branch. -/
def appStartPhase1 (s : AppState) : StartPhase1Out :=
  if s.isStartingRecording = true ∨ s.recorder ≠ none ∨ s.recordingState ≠ NState.idle then
    StartPhase1Out.blocked s
  else
    let s1 := { s with isStartingRecording := true }
    let recordMic := s.selectedMic.isSome
    let recordSystem := s.selectedSystemAudio.isSome && (s.recordBoth || !recordMic)
    if recordMic = false ∧ recordSystem = false then
      StartPhase1Out.invalidSources
        { s1 with errorMessage := "Please select at least one audio source" }
    else
      StartPhase1Out.proceed s1 recordMic recordSystem

/-- Remainder of `App.startRecording` after the first await
(src/app.ts 1303-1348): clear the error message, record the generated
output path, construct the `NativeAudioRecorder`, register the listeners,
await its `start` (the catch copies a thrown message into
`errorMessage`), and in the `finally` clear the `isStartingRecording`
flag.  Returns the new app state and how many subprocesses were spawned. -/
def appStartPhase2 (s : AppState) (recordMic recordSystem : Bool)
    (outputPath : String) (now : Int) (spawnOk : Bool) : AppState × Nat :=
  let s1 := { s with outputPath := outputPath, errorMessage := "" }
  let r0 : NativeAudioRecorder :=
    { state := NState.idle,
      config := { outputPath := outputPath, recordMic := recordMic,
                  recordSystem := recordSystem },
      startTime := 0, processPresent := false }
  let res := r0.start now spawnOk
  let s2 := appApplyRecorderEvents { s1 with recorder := some res.recorder } res.events
  let s3 :=
    match res.thrown with
    | some msg => { s2 with errorMessage := msg }
    | none => s2
  ({ s3 with isStartingRecording := false }, if res.spawned then 1 else 0)

/-- One complete `App.startRecording` call with no interleaved caller. -/
def appStartRecording (s : AppState) (outputPath : String) (now : Int)
    (spawnOk : Bool) : AppState × Nat :=
  match appStartPhase1 s with
  | StartPhase1Out.blocked s1 => (s1, 0)
  | StartPhase1Out.invalidSources s1 => (s1, 0)
  | StartPhase1Out.proceed s1 recordMic recordSystem =>
      appStartPhase2 s1 recordMic recordSystem outputPath now spawnOk

/-- Two `start` calls in immediate succession: the first runs its
synchronous prefix and suspends at the directory await; the second then
runs to completion; finally the first resumes.  Returns the final app state
and the total number of subprocesses spawned. -/
def doubleStartScenario (s : AppState) (out1 out2 : String) (t1 t2 : Int)
    (spawnOk : Bool) : AppState × Nat :=
  match appStartPhase1 s with
  | StartPhase1Out.blocked s1 => (s1, 0)
  | StartPhase1Out.invalidSources s1 => (s1, 0)
  | StartPhase1Out.proceed s1 recordMic recordSystem =>
      let second := appStartRecording s1 out2 t2 spawnOk
      let first := appStartPhase2 second.1 recordMic recordSystem out1 t1 spawnOk
      (first.1, second.2 + first.2)

/-! ## Dual-source merge step (`RecordingSession.mergeAudioFiles`,
native/recorder.swift 360-402)

The file system is modelled as the list of existing paths.  The external
mixing tool is an oracle triple: `ffmpegPath` (what `which("ffmpeg")`
returned), `runOk` (whether `process.run()` threw), and `status` (the
termination status); the tool is modelled as producing the output file
exactly on a zero termination status.
-/

/-- Fuel-driven core of Swift `replacingOccurrences(of:with:)`: replace
every (leftmost, non-overlapping) occurrence of `pat` by `repl`.  The fuel
is always instantiated with the length of the string, which one char or one
match consumed per step can never exhaust. -/
def replaceChars (pat repl : List Char) : Nat → List Char → List Char
  | _, [] => []
  | 0, s => s
  | Nat.succ fuel, c :: rest =>
      if pat ≠ [] ∧ charsStartWith pat (c :: rest) = true then
        repl ++ replaceChars pat repl fuel (rest.drop (pat.length - 1))
      else
        c :: replaceChars pat repl fuel rest

/-- Swift `s.replacingOccurrences(of: pat, with: repl)`. -/
def strReplaceAll (s pat repl : String) : String :=
  String.mk (replaceChars pat.toList repl.toList s.toList.length s.toList)

/-- `try? FileManager.default.moveItem(atPath:toPath:)`: renames the file
when the source exists, and is a silent no-op otherwise. -/
def moveFile (fs : List String) (src dst : String) : List String :=
  if src ∈ fs then (fs.erase src) ++ [dst] else fs

/-- The fallback tail of `mergeAudioFiles` (recorder.swift 391-401): derive
the base path by deleting every ".m4a" occurrence from the output path, and
rename both temp files next to it with the `_mic` / `_system` suffixes.  The
requested output path is not produced. -/
def renameFallback (fs : List String) (mic system output : String) : List String :=
  let basePath := strReplaceAll output ".m4a" ""
  let micFinal := basePath ++ "_mic.m4a"
  let sysFinal := basePath ++ "_system.m4a"
  moveFile (moveFile fs mic micFinal) system sysFinal

/-- `RecordingSession.mergeAudioFiles` (recorder.swift 360-402): when
`which` found the tool, the run did not throw and it exited 0, the merged
output exists and both temp files are deleted; in every other case the
rename fallback runs.  The function itself never throws or fails the stop
path (every file operation is `try?`). -/
def mergeAudioFiles (fs : List String) (mic system output : String)
    (ffmpegPath : Option String) (runOk : Bool) (status : Int) : List String :=
  match ffmpegPath with
  | some _ =>
      if runOk = true then
        if status = 0 then
          (((output :: fs.erase output).erase mic).erase system)
        else
          renameFallback fs mic system output
      else
        renameFallback fs mic system output
  | none => renameFallback fs mic system output

/-- The tail of the `record` command after the stop signal
(recorder.swift 556-558): `session.stop()` runs the merge when both temp
paths exist, and then — regardless of the merge outcome — the process
prints the `Recording stopped` success message and exits 0. -/
def recordStopOutcome (fs : List String) (micPath sysPath : Option String)
    (output : String) (ffmpegPath : Option String) (runOk : Bool) (status : Int) :
    List String × RecorderMessage :=
  let fs1 :=
    match micPath, sysPath with
    | some m, some s => mergeAudioFiles fs m s output ffmpegPath runOk status
    | _, _ => fs
  (fs1, { success := true, message := some "Recording stopped", error := none })

/-! ## Object-store model for `getConfig`

`getConfig()` returns a fresh shallow copy of the stored configuration
(the TS spread of `this.config`), not the stored object itself, so caller
mutation of the returned object cannot reach the recorder's configuration.
To state that aliasing fact the configuration objects live in a small
heap: addresses are allocation order, the recorder holds the address of
its stored configuration, and `getConfigAlloc` is `getConfig`. -/

/-- A heap of configuration objects: `next` is the next fresh address,
`mem` the contents at each address. -/
structure ConfigHeap : Type where
  next : Nat
  mem : Nat → RecorderConfig

/-- Allocate a fresh configuration object. -/
def ConfigHeap.alloc (h : ConfigHeap) (c : RecorderConfig) : ConfigHeap × Nat :=
  ({ next := h.next + 1,
     mem := fun a => if a = h.next then c else h.mem a }, h.next)

/-- Overwrite an existing configuration object in place (caller mutation). -/
def ConfigHeap.write (h : ConfigHeap) (a : Nat) (c : RecorderConfig) : ConfigHeap :=
  { h with mem := fun x => if x = a then c else h.mem x }

/-- `getConfig` (part_000 lines 308-310): allocate a fresh object holding a
copy of the stored configuration and hand that address to the caller.
`configAddr` is the address of the recorder's stored configuration. -/
def getConfigAlloc (h : ConfigHeap) (configAddr : Nat) : ConfigHeap × Nat :=
  h.alloc (h.mem configAddr)

/-! ## Reachable recorder states

`Reached r t` says the FFmpeg-backed recorder can be in state `r` with `t`
the timestamp of the last lifecycle event, under a monotone host clock
(every later `Date.now()` reading is at least the previous one).  It is the
transition system generated by the lifecycle methods above. -/

/-- Reachability of an `AudioRecorder` state, tracking the time of the last
lifecycle call so that "now" arguments can be constrained to be monotone. -/
inductive Reached : AudioRecorder → Int → Prop where
  | init (platform : Platform) (config : RecorderConfig) (t0 : Int) :
      Reached (initRecorder platform config) t0
  | stepStart (r : AudioRecorder) (t now : Int) (spawnOk : Bool) :
      Reached r t → t ≤ now → Reached (r.start now spawnOk).recorder now
  | stepPause (r : AudioRecorder) (t now : Int) :
      Reached r t → t ≤ now → Reached (r.pause now).recorder now
  | stepResume (r : AudioRecorder) (t now : Int) :
      Reached r t → t ≤ now → Reached (r.resume now).recorder now
  | stepStop (r : AudioRecorder) (t now exitTimeMs : Int) :
      Reached r t → t ≤ now → Reached (r.stop exitTimeMs).recorder now
  | stepExited (r : AudioRecorder) (t now code : Int) :
      Reached r t → t ≤ now → Reached (r.exited code now).recorder now
  | stepKill (r : AudioRecorder) (t now : Int) :
      Reached r t → t ≤ now → Reached r.killRec.recorder now
  | stepSetConfig (r : AudioRecorder) (t now : Int) (p : PartialRecorderConfig) :
      Reached r t → t ≤ now → Reached (r.setConfig p).1 now

/-- Timing invariant of reachable states: whatever time has been folded into
`startTime` and `pausedDuration` never exceeds the time of the last
lifecycle event (frozen at `pauseStartTime` while paused). -/
def ElapsedInv (r : AudioRecorder) (t : Int) : Prop :=
  if r.state = RecordingState.idle then True
  else if r.state = RecordingState.paused then
    r.startTime + r.pausedDuration ≤ r.pauseStartTime ∧ r.pauseStartTime ≤ t
  else r.startTime + r.pausedDuration ≤ t

/-! ## Sample values used by the witness theorems -/

/-- A concrete microphone device. -/
def sampleDevice : AudioDevice := { index := 0, name := "MacBook Pro Microphone" }

/-- A concrete FFmpeg-recorder configuration with a microphone selected. -/
def sampleConfig : RecorderConfig :=
  { micDevice := some sampleDevice, systemDevice := none,
    outputPath := "/tmp/rec.m4a", outputFormat := "m4a",
    mixAudio := true, bitrate := "192k" }

/-- A concrete FFmpeg recorder mid-recording with a live subprocess. -/
def recRecording : AudioRecorder :=
  { state := RecordingState.recording, config := sampleConfig,
    platform := Platform.darwin, startTime := 1000, pausedDuration := 0,
    pauseStartTime := 0, processPresent := true }

/-- A concrete native recorder mid-recording with a live subprocess. -/
def nRecRecording : NativeAudioRecorder :=
  { state := NState.recording,
    config := { outputPath := "/tmp/rec.m4a", recordMic := true, recordSystem := true },
    startTime := 1000, processPresent := true }

/-- Recognizer for error events of the native recorder. -/
def isErrorEvent : NEvent → Bool
  | NEvent.errorEv _ => true
  | _ => false

/-- A concrete line parser for the witness: recognizes exactly one line as
the started message and treats every other line as a parse failure. -/
def parseFixed : String → Option RecorderMessage :=
  fun line =>
    if line = "started-line" then
      some { success := true, message := some "Recording started", error := none }
    else none

/-- A concrete native device used by the app-level scenarios. -/
def sampleNativeMic : NativeDevice :=
  { index := "0", name := "MacBook Pro Microphone", id := "mic-0",
    type := NDeviceType.microphone }

/-- An idle app state with a microphone selected. -/
def appIdleWithMic : AppState :=
  { isStartingRecording := false, recorder := none, recordingState := NState.idle,
    selectedMic := some sampleNativeMic, selectedSystemAudio := none,
    recordBoth := false, errorMessage := "", outputPath := "" }

/-- An idle app state with no audio source selected at all. -/
def appIdleNoSources : AppState :=
  { isStartingRecording := false, recorder := none, recordingState := NState.idle,
    selectedMic := none, selectedSystemAudio := none,
    recordBoth := false, errorMessage := "", outputPath := "" }

/-! # Theorems -/

/-- C1: every `stop()` made while Recording or Paused returns without
throwing; the signals sent to the subprocess consist of a prefix that
contains no kill, then SIGINT, then — exactly when the subprocess has not
exited within the fixed 5-second timeout — a single SIGKILL; in particular
an exit within the timeout means no force-kill is ever sent, and a missed
timeout always sends one.  Stated for both the FFmpeg-backed and the
native-CLI-backed recorder. -/
theorem stop_graceful_protocol :
    (∀ (r : AudioRecorder) (exitTimeMs : Int),
        (r.state = RecordingState.recording ∨ r.state = RecordingState.paused) →
        r.processPresent = true →
        (r.stop exitTimeMs).thrown = none ∧
        (∃ pre post, (r.stop exitTimeMs).signals = pre ++ Signal.sigint :: post ∧
            Signal.sigkill ∉ pre ∧
            (exitTimeMs < stopTimeoutMs → post = []) ∧
            (stopTimeoutMs ≤ exitTimeMs → post = [Signal.sigkill])) ∧
        (exitTimeMs < stopTimeoutMs → Signal.sigkill ∉ (r.stop exitTimeMs).signals) ∧
        (stopTimeoutMs ≤ exitTimeMs → Signal.sigkill ∈ (r.stop exitTimeMs).signals))
    ∧ (∀ (n : NativeAudioRecorder) (exitTimeMs : Int),
        n.state = NState.recording → n.processPresent = true →
        (n.stop exitTimeMs).thrown = none ∧
        (∃ post, (n.stop exitTimeMs).signals = Signal.sigint :: post ∧
            (exitTimeMs < stopTimeoutMs → post = []) ∧
            (stopTimeoutMs ≤ exitTimeMs → post = [Signal.sigkill]))) := by
  constructor
  · intro r exitTimeMs hs hp
    have hcond : ¬(r.state ≠ RecordingState.recording ∧ r.state ≠ RecordingState.paused) := by
      rcases hs with h | h <;> simp [h]
    refine ⟨?_, ?_, ?_, ?_⟩
    · simp [AudioRecorder.stop, hcond]
    · refine ⟨if r.state = RecordingState.paused ∧ r.platform ≠ Platform.win32 ∧
          r.processPresent = true then [Signal.sigcont] else [],
        if exitTimeMs < stopTimeoutMs then [] else [Signal.sigkill], ?_, ?_, ?_, ?_⟩
      · simp [AudioRecorder.stop, hcond, hp]
      · split <;> simp
      · intro hlt; simp [hlt]
      · intro hge
        have : ¬exitTimeMs < stopTimeoutMs := by omega
        simp [this]
    · intro hlt
      simp [AudioRecorder.stop, hcond, hp, hlt]
    · intro hge
      have hnlt : ¬exitTimeMs < stopTimeoutMs := by omega
      simp [AudioRecorder.stop, hcond, hp, hnlt]
  · intro n exitTimeMs hs hp
    have hcond : ¬n.state ≠ NState.recording := by simp [hs]
    refine ⟨?_, if exitTimeMs < stopTimeoutMs then [] else [Signal.sigkill], ?_, ?_, ?_⟩
    · simp [NativeAudioRecorder.stop, hcond]
    · simp [NativeAudioRecorder.stop, hcond, hp]
    · intro hlt; simp [hlt]
    · intro hge
      have : ¬exitTimeMs < stopTimeoutMs := by omega
      simp [this]

/-- Witness for C1 at concrete recorders: a stop whose subprocess exits
after 100 ms sends no kill, one whose subprocess needs 9000 ms gets killed. -/
theorem stop_graceful_protocol_witness :
    ((recRecording.stop 100).thrown = none ∧
      Signal.sigkill ∉ (recRecording.stop 100).signals) ∧
    Signal.sigkill ∈ (recRecording.stop 9000).signals ∧
    (nRecRecording.stop 100).thrown = none :=
  ⟨⟨(stop_graceful_protocol.1 recRecording 100 (Or.inl rfl) rfl).1,
    (stop_graceful_protocol.1 recRecording 100 (Or.inl rfl) rfl).2.2.1 (by decide)⟩,
   (stop_graceful_protocol.1 recRecording 9000 (Or.inl rfl) rfl).2.2.2 (by decide),
   (stop_graceful_protocol.2 nRecRecording 100 rfl rfl).1⟩

/-- C5: lifecycle calls from states that do not permit them throw
synchronously — `start` throws whenever not idle (leaving the recorder
unchanged), `stop` returns normally exactly from Recording or Paused,
`pause` exactly from Recording, `resume` exactly from Paused — and on a
Windows host `pause`/`resume` from their legal states are silent no-ops
(no signal, no event, no state change), so they only apply on non-Windows
hosts for the FFmpeg path. -/
theorem invalid_state_errors :
    (∀ (r : AudioRecorder) (now : Int) (spawnOk : Bool),
        r.state ≠ RecordingState.idle →
        (r.start now spawnOk).thrown.isSome = true ∧ (r.start now spawnOk).recorder = r)
    ∧ (∀ (r : AudioRecorder) (exitTimeMs : Int),
        ((r.stop exitTimeMs).thrown = none ↔
          (r.state = RecordingState.recording ∨ r.state = RecordingState.paused)))
    ∧ (∀ (r : AudioRecorder) (now : Int),
        ((r.pause now).thrown = none ↔ r.state = RecordingState.recording))
    ∧ (∀ (r : AudioRecorder) (now : Int),
        ((r.resume now).thrown = none ↔ r.state = RecordingState.paused))
    ∧ (∀ (r : AudioRecorder) (now : Int),
        r.state = RecordingState.recording → r.platform = Platform.win32 →
        (r.pause now).recorder = r ∧ (r.pause now).signals = [] ∧
          (r.pause now).events = [])
    ∧ (∀ (r : AudioRecorder) (now : Int),
        r.state = RecordingState.paused → r.platform = Platform.win32 →
        (r.resume now).recorder = r ∧ (r.resume now).signals = [] ∧
          (r.resume now).events = []) := by
  refine ⟨?_, ?_, ?_, ?_, ?_, ?_⟩
  · intro r now spawnOk h
    simp [AudioRecorder.start, h]
  · intro r exitTimeMs
    by_cases hc : r.state = RecordingState.recording ∨ r.state = RecordingState.paused
    · have hcond : ¬(r.state ≠ RecordingState.recording ∧
          r.state ≠ RecordingState.paused) := by tauto
      simp [AudioRecorder.stop, hcond, hc]
    · have hcond : r.state ≠ RecordingState.recording ∧
          r.state ≠ RecordingState.paused := by tauto
      simp [AudioRecorder.stop, hcond, hc]
  · intro r now
    by_cases hc : r.state = RecordingState.recording
    · simp only [AudioRecorder.pause, hc]
      split
      · simp_all
      · split <;> simp
    · simp [AudioRecorder.pause, hc]
  · intro r now
    by_cases hc : r.state = RecordingState.paused
    · simp only [AudioRecorder.resume, hc]
      split
      · simp_all
      · split <;> simp
    · simp [AudioRecorder.resume, hc]
  · intro r now hs hw
    have : ¬(r.platform ≠ Platform.win32 ∧ r.processPresent = true) := by simp [hw]
    simp [AudioRecorder.pause, hs, this]
  · intro r now hs hw
    have : ¬(r.platform ≠ Platform.win32 ∧ r.processPresent = true) := by simp [hw]
    simp [AudioRecorder.resume, hs, this]

/-- Witness for C5 at concrete recorders: starting mid-recording throws,
stopping mid-recording does not, pausing from idle throws, resuming from
idle throws, and pausing on a Windows host mid-recording is a no-op. -/
theorem invalid_state_errors_witness :
    ((recRecording.start 0 true).thrown.isSome = true ∧
      (recRecording.start 0 true).recorder = recRecording) ∧
    ((recRecording.stop 100).thrown = none) ∧
    ¬((initRecorder Platform.darwin sampleConfig).pause 0).thrown = none ∧
    ¬((initRecorder Platform.darwin sampleConfig).resume 0).thrown = none ∧
    ({ recRecording with platform := Platform.win32 }.pause 5).recorder =
      { recRecording with platform := Platform.win32 } :=
  ⟨invalid_state_errors.1 recRecording 0 true (by decide),
   (invalid_state_errors.2.1 recRecording 100).mpr (Or.inl rfl),
   fun h => by
     have := (invalid_state_errors.2.2.1 (initRecorder Platform.darwin sampleConfig) 0).mp h
     exact absurd this (by decide),
   fun h => by
     have := (invalid_state_errors.2.2.2.1 (initRecorder Platform.darwin sampleConfig) 0).mp h
     exact absurd this (by decide),
   (invalid_state_errors.2.2.2.2.1 { recRecording with platform := Platform.win32 } 5
      rfl rfl).1⟩

/-- The stream loop processes concatenated line batches independently. -/
theorem processLines_append_eq (parse : String → Option RecorderMessage)
    (outputPath : String) (l1 l2 : List String) :
    processLines parse outputPath (l1 ++ l2) =
      processLines parse outputPath l1 ++ processLines parse outputPath l2 := by
  induction l1 with
  | nil => rfl
  | cons a t ih => simp [processLines, ih]

/-- C7: a stdout line whose JSON parse fails is ignored — it emits no event,
and the surrounding well-formed lines are processed exactly as if the bad
line were absent, so the consumption loop neither stops nor throws. -/
theorem malformed_line_ignored (parse : String → Option RecorderMessage)
    (outputPath bad : String) (pre post : List String)
    (hbad : parse bad = none) :
    processLine parse outputPath bad = [] ∧
    processLines parse outputPath (pre ++ bad :: post) =
      processLines parse outputPath pre ++ processLines parse outputPath post := by
  have hline : processLine parse outputPath bad = [] := by
    unfold processLine
    split
    · rfl
    · simp [hbad]
  refine ⟨hline, ?_⟩
  have : bad :: post = [bad] ++ post := rfl
  rw [this, processLines_append_eq, processLines_append_eq]
  simp [processLines, hline]

/-- Witness for C7: with a parser that accepts exactly one line, a garbage
line between two good lines contributes nothing while both good lines are
still dispatched. -/
theorem malformed_line_ignored_witness :
    parseFixed "this is not json" = none ∧
    (processLine parseFixed "/tmp/rec.m4a" "this is not json" = [] ∧
      processLines parseFixed "/tmp/rec.m4a"
          (["started-line"] ++ "this is not json" :: ["started-line"]) =
        processLines parseFixed "/tmp/rec.m4a" ["started-line"] ++
          processLines parseFixed "/tmp/rec.m4a" ["started-line"]) :=
  ⟨by decide,
   malformed_line_ignored parseFixed "/tmp/rec.m4a" "this is not json"
     ["started-line"] ["started-line"] (by decide)⟩

/-- C3 counterexample: when the subprocess exits while a concrete recorder
is Recording, the exit handler emits only a state-change event — no error
event reaches the listeners, contradicting the claim that the condition is
surfaced as an error event. -/
theorem unexpected_exit_no_error_event :
    (nRecRecording.exited 1).1.state = NState.idle ∧
    ((nRecRecording.exited 1).2).filter isErrorEvent = [] ∧
    (nRecRecording.exited 1).2 = [NEvent.stateChange NState.idle] := by decide

/-- C3 amended: whenever the subprocess exits while Recording, the handler
forces the state back to idle and emits the state change; it emits no error
event and performs no other action (in particular no merge of temporary
files — the result is exactly the idle-forced recorder and the single
state-change event). -/
theorem unexpected_exit_behavior (r : NativeAudioRecorder) (code : Int)
    (h : r.state = NState.recording) :
    (r.exited code).1 = { r with state := NState.idle } ∧
    (r.exited code).2 = [NEvent.stateChange NState.idle] := by
  simp [NativeAudioRecorder.exited, h]

/-- Witness for the amended C3 at a concrete recorder. -/
theorem unexpected_exit_behavior_witness :
    nRecRecording.state = NState.recording ∧
    (nRecRecording.exited 2).2 = [NEvent.stateChange NState.idle] :=
  ⟨rfl, (unexpected_exit_behavior nRecRecording 2 rfl).2⟩

/-- C2: two `start()` calls in immediate succession from a clean idle app
state (the second arriving while the first is suspended before its spawn)
spawn exactly one subprocess: the `isStartingRecording` flag set by the
first call's synchronous prefix makes the second call return as a no-op. -/
theorem double_start_spawns_once (s : AppState) (out1 out2 : String) (t1 t2 : Int)
    (h1 : s.isStartingRecording = false) (h2 : s.recorder = none)
    (h3 : s.recordingState = NState.idle) (h4 : s.selectedMic.isSome = true) :
    (doubleStartScenario s out1 out2 t1 t2 true).2 = 1 ∧
    (∀ s1 recordMic recordSystem,
        appStartPhase1 s = StartPhase1Out.proceed s1 recordMic recordSystem →
        appStartRecording s1 out2 t2 true = (s1, 0)) := by
  have hphase1 : appStartPhase1 s =
      StartPhase1Out.proceed { s with isStartingRecording := true }
        s.selectedMic.isSome
        (s.selectedSystemAudio.isSome && (s.recordBoth || !s.selectedMic.isSome)) := by
    simp [appStartPhase1, h1, h2, h3, h4]
  have hsecond : appStartRecording { s with isStartingRecording := true } out2 t2 true =
      ({ s with isStartingRecording := true }, 0) := by
    simp [appStartRecording, appStartPhase1]
  constructor
  · simp only [doubleStartScenario, hphase1, hsecond]
    simp [appStartPhase2, NativeAudioRecorder.start, appApplyRecorderEvents]
  · intro s1 recordMic recordSystem hp
    rw [hphase1] at hp
    cases hp
    exact hsecond

/-- Witness for C2 at a concrete idle app state with a microphone selected. -/
theorem double_start_spawns_once_witness :
    (doubleStartScenario appIdleWithMic "/tmp/a.m4a" "/tmp/b.m4a" 10 11 true).2 = 1 :=
  (double_start_spawns_once appIdleWithMic "/tmp/a.m4a" "/tmp/b.m4a" 10 11
    rfl rfl rfl rfl).1

/-- C6 (code bug): a `start()` attempt that fails source validation returns
early without clearing the `isStartingRecording` guard (the early `return`
skips the `finally`), spawns nothing and surfaces the message; but because
the guard is still set, every subsequent `start()` from the idle state —
even after a microphone is selected — is silently ignored (no spawn, no
state change, no error), contradicting the claim that a later `start()`
from Idle is accepted. -/
theorem start_validation_failure_sticks :
    (appStartRecording appIdleNoSources "/tmp/o.m4a" 0 true).1.isStartingRecording
        = true ∧
    (appStartRecording appIdleNoSources "/tmp/o.m4a" 0 true).2 = 0 ∧
    (appStartRecording appIdleNoSources "/tmp/o.m4a" 0 true).1.errorMessage =
      "Please select at least one audio source" ∧
    (appStartRecording appIdleNoSources "/tmp/o.m4a" 0 true).1.recordingState =
      NState.idle ∧
    (appStartRecording
        { (appStartRecording appIdleNoSources "/tmp/o.m4a" 0 true).1 with
          selectedMic := some sampleNativeMic } "/tmp/o2.m4a" 1 true).2 = 0 ∧
    (appStartRecording
        { (appStartRecording appIdleNoSources "/tmp/o.m4a" 0 true).1 with
          selectedMic := some sampleNativeMic } "/tmp/o2.m4a" 1 true).1 =
      { (appStartRecording appIdleNoSources "/tmp/o.m4a" 0 true).1 with
        selectedMic := some sampleNativeMic } := by decide

/-- The timing invariant is preserved when only the clock advances. -/
theorem elapsedInv_mono (r : AudioRecorder) (t t' : Int)
    (h : ElapsedInv r t) (hle : t ≤ t') : ElapsedInv r t' := by
  unfold ElapsedInv at h ⊢
  by_cases h1 : r.state = RecordingState.idle
  · simp [h1]
  · by_cases h2 : r.state = RecordingState.paused
    · simp only [if_neg h1, if_pos h2] at h ⊢
      exact ⟨h.1, le_trans h.2 hle⟩
    · simp only [if_neg h1, if_neg h2] at h ⊢
      exact le_trans h hle

/-- Every reachable recorder state satisfies the timing invariant. -/
theorem reached_elapsedInv (r : AudioRecorder) (t : Int) (h : Reached r t) :
    ElapsedInv r t := by
  induction h with
  | init platform config t0 => simp [ElapsedInv, initRecorder]
  | stepStart r t now spawnOk hr hle ih =>
      by_cases h1 : r.state ≠ RecordingState.idle
      · simp only [AudioRecorder.start, if_pos h1]
        exact elapsedInv_mono r t now ih hle
      · by_cases h2 : r.config.micDevice = none ∧ r.config.systemDevice = none
        · simp only [AudioRecorder.start, if_neg h1, if_pos h2]
          exact elapsedInv_mono r t now ih hle
        · by_cases h3 : spawnOk = true
          · simp only [AudioRecorder.start, if_neg h1, if_neg h2, if_pos h3]
            simp [ElapsedInv]
          · simp only [AudioRecorder.start, if_neg h1, if_neg h2, if_neg h3]
            simp [ElapsedInv]
  | stepPause r t now hr hle ih =>
      by_cases h1 : r.state ≠ RecordingState.recording
      · simp only [AudioRecorder.pause, if_pos h1]
        exact elapsedInv_mono r t now ih hle
      · have hst : r.state = RecordingState.recording := not_not.mp h1
        by_cases h2 : r.platform ≠ Platform.win32 ∧ r.processPresent = true
        · simp only [AudioRecorder.pause, if_neg h1, if_pos h2]
          simp [ElapsedInv, hst] at ih
          simp [ElapsedInv]
          omega
        · simp only [AudioRecorder.pause, if_neg h1, if_neg h2]
          exact elapsedInv_mono r t now ih hle
  | stepResume r t now hr hle ih =>
      by_cases h1 : r.state ≠ RecordingState.paused
      · simp only [AudioRecorder.resume, if_pos h1]
        exact elapsedInv_mono r t now ih hle
      · have hst : r.state = RecordingState.paused := not_not.mp h1
        by_cases h2 : r.platform ≠ Platform.win32 ∧ r.processPresent = true
        · simp only [AudioRecorder.resume, if_neg h1, if_pos h2]
          simp [ElapsedInv, hst] at ih
          simp [ElapsedInv]
          omega
        · simp only [AudioRecorder.resume, if_neg h1, if_neg h2]
          exact elapsedInv_mono r t now ih hle
  | stepStop r t now exitTimeMs hr hle ih =>
      by_cases h1 : r.state ≠ RecordingState.recording ∧ r.state ≠ RecordingState.paused
      · simp only [AudioRecorder.stop, if_pos h1]
        exact elapsedInv_mono r t now ih hle
      · simp only [AudioRecorder.stop, if_neg h1]
        have hsd : r.state = RecordingState.recording ∨ r.state = RecordingState.paused := by
          tauto
        simp [ElapsedInv]
        rcases hsd with hst | hst <;> simp [ElapsedInv, hst] at ih <;> omega
  | stepExited r t now code hr hle ih =>
      simp [AudioRecorder.exited, ElapsedInv]
  | stepKill r t now hr hle ih =>
      simp [AudioRecorder.killRec, ElapsedInv]
  | stepSetConfig r t now p hr hle ih =>
      by_cases h1 : r.state ≠ RecordingState.idle
      · simp only [AudioRecorder.setConfig, if_pos h1]
        exact elapsedInv_mono r t now ih hle
      · have hst : r.state = RecordingState.idle := not_not.mp h1
        simp [AudioRecorder.setConfig, h1, ElapsedInv, hst]

/-- C4: elapsed time is `now − startTime − pausedDuration` while Recording,
is frozen at `pauseStartTime − startTime − pausedDuration` while Paused,
is never negative in any reachable state read at or after the last
lifecycle event, and a `pause` immediately followed by `resume` leaves the
elapsed time exactly equal to its value at the moment of pausing (the
paused interval is fully excluded). -/
theorem elapsed_time_spec :
    (∀ (r : AudioRecorder) (now : Int), r.state = RecordingState.recording →
        r.getElapsedTime now = now - r.startTime - r.pausedDuration)
    ∧ (∀ (r : AudioRecorder) (now : Int), r.state = RecordingState.paused →
        r.getElapsedTime now = r.pauseStartTime - r.startTime - r.pausedDuration)
    ∧ (∀ (r : AudioRecorder) (t now : Int), Reached r t → t ≤ now →
        0 ≤ r.getElapsedTime now)
    ∧ (∀ (r : AudioRecorder) (t1 t2 : Int), r.state = RecordingState.recording →
        r.platform ≠ Platform.win32 → r.processPresent = true →
        (((r.pause t1).recorder.resume t2).recorder).getElapsedTime t2 =
          r.getElapsedTime t1) := by
  refine ⟨?_, ?_, ?_, ?_⟩
  · intro r now h
    simp [AudioRecorder.getElapsedTime, h]
  · intro r now h
    simp [AudioRecorder.getElapsedTime, h]
  · intro r t now hr hle
    have hi := reached_elapsedInv r t hr
    unfold ElapsedInv at hi
    unfold AudioRecorder.getElapsedTime
    split_ifs at hi ⊢ with h1 h2
    · omega
    · omega
    · omega
  · intro r t1 t2 h hplat hproc
    simp [AudioRecorder.pause, AudioRecorder.resume, AudioRecorder.getElapsedTime,
      h, hplat, hproc]
    omega

/-- Witness for C4: a concrete reachable recording state has nonnegative
elapsed time, and a concrete pause-resume round trip preserves it. -/
theorem elapsed_time_spec_witness :
    0 ≤ recRecording.getElapsedTime 2000 ∧
    (((recRecording.pause 3000).recorder.resume 4000).recorder).getElapsedTime 4000 =
      recRecording.getElapsedTime 3000 := by
  constructor
  · have h0 := Reached.init Platform.darwin sampleConfig 0
    have h1 := Reached.stepStart (initRecorder Platform.darwin sampleConfig) 0 1000 true
      h0 (by decide)
    have he : ((initRecorder Platform.darwin sampleConfig).start 1000 true).recorder =
        recRecording := by decide
    rw [he] at h1
    exact elapsed_time_spec.2.2.1 recRecording 1000 2000 h1 (by decide)
  · exact elapsed_time_spec.2.2.2 recRecording 3000 4000 rfl (by decide) rfl

/-- C8: for a dual-source recording, a successful run of the mixing tool
leaves the merged output at the requested path with both temp files
deleted; when the tool is absent, its run throws, or it exits nonzero, both
temp files are renamed (not deleted) to the `_mic` / `_system` suffixed
names next to the requested output path, which itself is not produced; and
the stop path always reports success regardless of the merge outcome. -/
theorem merge_outcomes :
    (∀ (fs : List String) (mic system output toolPath : String),
        fs.Nodup → mic ≠ output → system ≠ output → mic ≠ system →
        output ∈ mergeAudioFiles fs mic system output (some toolPath) true 0 ∧
        mic ∉ mergeAudioFiles fs mic system output (some toolPath) true 0 ∧
        system ∉ mergeAudioFiles fs mic system output (some toolPath) true 0)
    ∧ (∀ (fs : List String) (mic system output : String)
        (ffmpegPath : Option String) (runOk : Bool) (status : Int),
        (ffmpegPath = none ∨ runOk = false ∨ status ≠ 0) →
        fs.Nodup → mic ∈ fs → system ∈ fs → output ∉ fs →
        strReplaceAll output ".m4a" "" ++ "_mic.m4a" ∉ fs →
        mic ≠ system →
        mic ≠ strReplaceAll output ".m4a" "" ++ "_mic.m4a" →
        mic ≠ strReplaceAll output ".m4a" "" ++ "_system.m4a" →
        system ≠ strReplaceAll output ".m4a" "" ++ "_mic.m4a" →
        system ≠ strReplaceAll output ".m4a" "" ++ "_system.m4a" →
        output ≠ strReplaceAll output ".m4a" "" ++ "_mic.m4a" →
        output ≠ strReplaceAll output ".m4a" "" ++ "_system.m4a" →
        strReplaceAll output ".m4a" "" ++ "_mic.m4a" ∈
            mergeAudioFiles fs mic system output ffmpegPath runOk status ∧
        strReplaceAll output ".m4a" "" ++ "_system.m4a" ∈
            mergeAudioFiles fs mic system output ffmpegPath runOk status ∧
        mic ∉ mergeAudioFiles fs mic system output ffmpegPath runOk status ∧
        system ∉ mergeAudioFiles fs mic system output ffmpegPath runOk status ∧
        output ∉ mergeAudioFiles fs mic system output ffmpegPath runOk status)
    ∧ (∀ (fs : List String) (micPath sysPath : Option String) (output : String)
        (ffmpegPath : Option String) (runOk : Bool) (status : Int),
        (recordStopOutcome fs micPath sysPath output ffmpegPath runOk status).2 =
          { success := true, message := some "Recording stopped", error := none }) := by
  refine ⟨?_, ?_, ?_⟩
  · intro fs mic system output toolPath hnd hmo hso hms
    have hred : mergeAudioFiles fs mic system output (some toolPath) true 0 =
        ((output :: fs.erase output).erase mic).erase system := by
      simp [mergeAudioFiles]
    have hl1 : (output :: fs.erase output).Nodup :=
      List.nodup_cons.mpr ⟨hnd.not_mem_erase, hnd.erase _⟩
    rw [hred]
    refine ⟨?_, ?_, ?_⟩
    · rw [List.mem_erase_of_ne (Ne.symm hso), List.mem_erase_of_ne (Ne.symm hmo)]
      exact List.mem_cons_self _ _
    · intro hm
      exact hl1.not_mem_erase (List.erase_subset _ _ hm)
    · exact (hl1.erase mic).not_mem_erase
  · intro fs mic system output ffmpegPath runOk status hfail hnd hmic hsys hout
      hmicF hms hmmf hmsf hsmf hssf homf hosf
    have hsysmem : system ∈ fs.erase mic ++
        [strReplaceAll output ".m4a" "" ++ "_mic.m4a"] := by
      rw [List.mem_append]
      exact Or.inl (hnd.mem_erase_iff.mpr ⟨Ne.symm hms, hsys⟩)
    have hrn : renameFallback fs mic system output =
        (fs.erase mic ++ [strReplaceAll output ".m4a" "" ++ "_mic.m4a"]).erase system ++
          [strReplaceAll output ".m4a" "" ++ "_system.m4a"] := by
      simp only [renameFallback, moveFile]
      rw [if_pos hmic, if_pos hsysmem]
    have hcore : mergeAudioFiles fs mic system output ffmpegPath runOk status =
        renameFallback fs mic system output := by
      rcases hfail with hf | hf | hf
      · subst hf; rfl
      · cases ffmpegPath with
        | none => rfl
        | some p => simp [mergeAudioFiles, hf]
      · cases ffmpegPath with
        | none => rfl
        | some p =>
            by_cases hr : runOk = true
            · simp [mergeAudioFiles, hr, hf]
            · simp [mergeAudioFiles, hr]
    have hfs1nd : (fs.erase mic ++
        [strReplaceAll output ".m4a" "" ++ "_mic.m4a"]).Nodup := by
      rw [List.nodup_append]
      refine ⟨hnd.erase mic, List.nodup_singleton _, ?_⟩
      intro a ha hb
      rw [List.mem_singleton] at hb
      subst hb
      exact hmicF (List.erase_subset _ _ ha)
    have hmicnot1 : mic ∉ fs.erase mic ++
        [strReplaceAll output ".m4a" "" ++ "_mic.m4a"] := by
      rw [List.mem_append, List.mem_singleton]
      push_neg
      exact ⟨hnd.not_mem_erase, hmmf⟩
    have houtnot1 : output ∉ fs.erase mic ++
        [strReplaceAll output ".m4a" "" ++ "_mic.m4a"] := by
      rw [List.mem_append, List.mem_singleton]
      push_neg
      exact ⟨fun hm => hout (List.erase_subset _ _ hm), homf⟩
    rw [hcore, hrn]
    refine ⟨?_, ?_, ?_, ?_, ?_⟩
    · rw [List.mem_append]
      refine Or.inl ?_
      rw [List.mem_erase_of_ne (Ne.symm hsmf), List.mem_append, List.mem_singleton]
      exact Or.inr rfl
    · rw [List.mem_append, List.mem_singleton]
      exact Or.inr rfl
    · rw [List.mem_append, List.mem_singleton]
      push_neg
      exact ⟨fun hm => hmicnot1 (List.erase_subset _ _ hm), hmsf⟩
    · rw [List.mem_append, List.mem_singleton]
      push_neg
      exact ⟨hfs1nd.not_mem_erase, hssf⟩
    · rw [List.mem_append, List.mem_singleton]
      push_neg
      exact ⟨fun hm => houtnot1 (List.erase_subset _ _ hm), hosf⟩
  · intro fs micPath sysPath output ffmpegPath runOk status
    rfl

/-- Witness for C8 at a concrete dual recording `/tmp/rec.m4a`: on a
successful merge the output exists and the temp files are gone; with the
tool absent the `_mic`/`_system` renames exist and the output does not;
and the stop message still reports success in the failure case. -/
theorem merge_outcomes_witness :
    ("/tmp/rec.m4a" ∈ mergeAudioFiles ["/tmp/rec_temp_mic.m4a", "/tmp/rec_temp_sys.m4a"]
        "/tmp/rec_temp_mic.m4a" "/tmp/rec_temp_sys.m4a" "/tmp/rec.m4a"
        (some "/usr/bin/ffmpeg") true 0 ∧
      "/tmp/rec_temp_mic.m4a" ∉ mergeAudioFiles
        ["/tmp/rec_temp_mic.m4a", "/tmp/rec_temp_sys.m4a"]
        "/tmp/rec_temp_mic.m4a" "/tmp/rec_temp_sys.m4a" "/tmp/rec.m4a"
        (some "/usr/bin/ffmpeg") true 0) ∧
    ("/tmp/rec_mic.m4a" ∈ mergeAudioFiles
        ["/tmp/rec_temp_mic.m4a", "/tmp/rec_temp_sys.m4a"]
        "/tmp/rec_temp_mic.m4a" "/tmp/rec_temp_sys.m4a" "/tmp/rec.m4a" none true 0 ∧
      "/tmp/rec.m4a" ∉ mergeAudioFiles
        ["/tmp/rec_temp_mic.m4a", "/tmp/rec_temp_sys.m4a"]
        "/tmp/rec_temp_mic.m4a" "/tmp/rec_temp_sys.m4a" "/tmp/rec.m4a" none true 0) ∧
    (recordStopOutcome ["/tmp/rec_temp_mic.m4a", "/tmp/rec_temp_sys.m4a"]
        (some "/tmp/rec_temp_mic.m4a") (some "/tmp/rec_temp_sys.m4a")
        "/tmp/rec.m4a" none true 0).2 =
      { success := true, message := some "Recording stopped", error := none } := by
  refine ⟨?_, ?_, ?_⟩
  · have h := merge_outcomes.1 ["/tmp/rec_temp_mic.m4a", "/tmp/rec_temp_sys.m4a"]
      "/tmp/rec_temp_mic.m4a" "/tmp/rec_temp_sys.m4a" "/tmp/rec.m4a" "/usr/bin/ffmpeg"
      (by decide) (by decide) (by decide) (by decide)
    exact ⟨h.1, h.2.1⟩
  · have h := merge_outcomes.2.1 ["/tmp/rec_temp_mic.m4a", "/tmp/rec_temp_sys.m4a"]
      "/tmp/rec_temp_mic.m4a" "/tmp/rec_temp_sys.m4a" "/tmp/rec.m4a" none true 0
      (Or.inl rfl) (by decide) (by decide) (by decide) (by decide) (by decide)
      (by decide) (by decide) (by decide) (by decide) (by decide) (by decide)
      (by decide)
    exact ⟨h.1, h.2.2.2.2⟩
  · exact merge_outcomes.2.2 ["/tmp/rec_temp_mic.m4a", "/tmp/rec_temp_sys.m4a"]
      (some "/tmp/rec_temp_mic.m4a") (some "/tmp/rec_temp_sys.m4a")
      "/tmp/rec.m4a" none true 0

/-- C10: `setConfig` from any non-idle state throws and leaves the recorder
(and hence its stored configuration) unchanged; from idle it returns
normally and updates exactly the fields present in the partial argument,
leaving absent fields and the rest of the recorder unchanged; and
`getConfig` hands out a freshly allocated copy of the stored configuration,
so overwriting the returned object never changes the stored one. -/
theorem set_get_config_spec :
    (∀ (r : AudioRecorder) (p : PartialRecorderConfig),
        r.state ≠ RecordingState.idle →
        (r.setConfig p).1 = r ∧ (r.setConfig p).2.isSome = true)
    ∧ (∀ (r : AudioRecorder) (p : PartialRecorderConfig),
        r.state = RecordingState.idle →
        (r.setConfig p).2 = none ∧
        (∀ v, p.micDevice = some v → (r.setConfig p).1.config.micDevice = v) ∧
        (p.micDevice = none →
          (r.setConfig p).1.config.micDevice = r.config.micDevice) ∧
        (∀ v, p.systemDevice = some v → (r.setConfig p).1.config.systemDevice = v) ∧
        (p.systemDevice = none →
          (r.setConfig p).1.config.systemDevice = r.config.systemDevice) ∧
        (∀ v, p.outputPath = some v → (r.setConfig p).1.config.outputPath = v) ∧
        (p.outputPath = none →
          (r.setConfig p).1.config.outputPath = r.config.outputPath) ∧
        (∀ v, p.outputFormat = some v → (r.setConfig p).1.config.outputFormat = v) ∧
        (p.outputFormat = none →
          (r.setConfig p).1.config.outputFormat = r.config.outputFormat) ∧
        (∀ v, p.mixAudio = some v → (r.setConfig p).1.config.mixAudio = v) ∧
        (p.mixAudio = none → (r.setConfig p).1.config.mixAudio = r.config.mixAudio) ∧
        (∀ v, p.bitrate = some v → (r.setConfig p).1.config.bitrate = v) ∧
        (p.bitrate = none → (r.setConfig p).1.config.bitrate = r.config.bitrate) ∧
        (r.setConfig p).1.state = r.state ∧
        (r.setConfig p).1.startTime = r.startTime)
    ∧ (∀ (h : ConfigHeap) (a : Nat), a < h.next →
        (getConfigAlloc h a).2 ≠ a ∧
        (getConfigAlloc h a).1.mem (getConfigAlloc h a).2 = h.mem a ∧
        (∀ c : RecorderConfig,
          ((getConfigAlloc h a).1.write (getConfigAlloc h a).2 c).mem a = h.mem a)) := by
  refine ⟨?_, ?_, ?_⟩
  · intro r p h
    simp [AudioRecorder.setConfig, h]
  · intro r p h
    have hni : ¬r.state ≠ RecordingState.idle := by simp [h]
    simp only [AudioRecorder.setConfig, if_neg hni]
    refine ⟨by trivial, ?_, ?_, ?_, ?_, ?_, ?_, ?_, ?_, ?_, ?_, ?_, ?_, by trivial,
      by trivial⟩
    all_goals
      first
        | (intro v hv; simp [applyPartialConfig, hv])
        | (intro hv; simp [applyPartialConfig, hv])
  · intro h a ha
    have hne : a ≠ h.next := by omega
    refine ⟨?_, ?_, ?_⟩
    · simp only [getConfigAlloc, ConfigHeap.alloc]
      omega
    · simp [getConfigAlloc, ConfigHeap.alloc]
    · intro c
      simp [getConfigAlloc, ConfigHeap.alloc, ConfigHeap.write, hne]

/-- Witness for C10: setting configuration mid-recording is rejected and
changes nothing; from idle, a partial with only `mixAudio` present updates
that field and leaves `bitrate` alone; and mutating the object returned by
`getConfig` on a one-cell heap leaves the stored configuration intact. -/
theorem set_get_config_spec_witness :
    (recRecording.setConfig
        { micDevice := none, systemDevice := none, outputPath := none,
          outputFormat := none, mixAudio := none, bitrate := none }).1 =
      recRecording ∧
    ((initRecorder Platform.darwin sampleConfig).setConfig
        { micDevice := none, systemDevice := none, outputPath := none,
          outputFormat := none, mixAudio := some false, bitrate := none
        }).1.config.mixAudio = false ∧
    ((initRecorder Platform.darwin sampleConfig).setConfig
        { micDevice := none, systemDevice := none, outputPath := none,
          outputFormat := none, mixAudio := some false, bitrate := none
        }).1.config.bitrate = sampleConfig.bitrate ∧
    (getConfigAlloc { next := 1, mem := fun _ => sampleConfig } 0).2 ≠ 0 ∧
    ((getConfigAlloc { next := 1, mem := fun _ => sampleConfig } 0).1.write
        (getConfigAlloc { next := 1, mem := fun _ => sampleConfig } 0).2
        { sampleConfig with bitrate := "64k" }).mem 0 = sampleConfig := by
  obtain ⟨-, -, -, -, -, -, -, -, -, hmix, -, -, hbit, -, -⟩ :=
    set_get_config_spec.2.1 (initRecorder Platform.darwin sampleConfig)
      { micDevice := none, systemDevice := none, outputPath := none,
        outputFormat := none, mixAudio := some false, bitrate := none } rfl
  refine ⟨(set_get_config_spec.1 recRecording
      { micDevice := none, systemDevice := none, outputPath := none,
        outputFormat := none, mixAudio := none, bitrate := none } (by decide)).1,
    hmix false rfl, hbit rfl,
    (set_get_config_spec.2.2 { next := 1, mem := fun _ => sampleConfig } 0
      (by decide)).1,
    (set_get_config_spec.2.2 { next := 1, mem := fun _ => sampleConfig } 0
      (by decide)).2.2 { sampleConfig with bitrate := "64k" }⟩
